import Mathlib

/-!
Shallow embedding of the two aslib components that the claims are about.

Part 1 — `aslib::Result<S,F>` (src/unnamed/part_000, header `aslib/Result.hpp`):
a discriminated container holding exactly one of a success value `S`, a
failure value `F`, or nothing, stored in a raw byte buffer with a separate
discriminant `state_`.

Part 2 — `aslib::DeepCopyPtr<Type>` (src/include/aslib/DeepCopyPtr.hpp):
an owning pointer with deep-copy semantics and a type-erased dynamic deleter.
-/

namespace aslib

/-- Source `enum State { uninit, succeeded, failed }` of `Result`, extended by
`indet`, which models a discriminant that was never initialized (indeterminate
memory): the copy constructor `Result(const Result &src)` early-returns on an
uninit source without any member-initializer for `state_`, so the new object's
discriminant is indeterminate in that path. -/
inductive StateV
  | indet
  | uninit
  | succeeded
  | failed
deriving DecidableEq, Repr

/-- The raw buffer `char storage_[CalcStorageSize::value]` holds at most one
live object: nothing, an `S`, or an `F`. -/
inductive Storage (S F : Type)
  | empty
  | succObj (s : S)
  | failObj (f : F)
deriving DecidableEq, Repr

/-- Observable payload-lifetime events, mirroring the instrumented `CoType`
payload used by the repository's own tests (ResultTest.cpp): which payload
constructor / assignment operator / destructor ran.  The destructor event
models `Destoroyer<T>` for a non-trivial (non-POD) payload type; for POD
payloads the source skips the call, which is observably a no-op. -/
inductive Ev
  | defaultCtor
  | copyCtor
  | moveCtor
  | copyAsgn
  | moveAsgn
  | dtor
deriving DecidableEq, Repr

/-- The two exception kinds of `Result`. -/
inductive Err
  | cantDereference
  | notHaveFailedObject
deriving DecidableEq, Repr

/-- Both `CantDereference` and `NotHaveFailedObject` derive `std::runtime_error`,
so both are catchable as a general runtime-error. -/
def Err.isRuntimeError : Err → Bool := fun _ => true

/-- The `what()` messages passed to the `std::runtime_error` base. -/
def Err.what : Err → String
  | .cantDereference => "Failed result value."
  | .notHaveFailedObject => "Not have the Failed object."

/-- State of one `aslib::Result<S,F>` object: the storage buffer content and
the discriminant field. -/
structure Result (S F : Type) where
  storage_ : Storage S F
  state_ : StateV
deriving DecidableEq, Repr

namespace Result

variable {S F : Type} [Inhabited S] [Inhabited F]

/-- Reading the buffer as an `S` (`*reinterpret_cast<const SucceededType *>(storage_)`).
When the buffer does not actually hold a live `S` the source read is undefined
behaviour; the model returns an arbitrary junk value there (unreachable from
any theorem hypothesis). -/
def readS : Storage S F → S
  | .succObj s => s
  | _ => default

/-- Reading the buffer as an `F` (`*reinterpret_cast<const FailedType *>(storage_)`). -/
def readF : Storage S F → F
  | .failObj f => f
  | _ => default

/-- Source invariant: the discriminant always reflects which object, if any,
is live in the buffer. -/
def wf (r : Result S F) : Bool :=
  match r.state_, r.storage_ with
  | .uninit, .empty => true
  | .succeeded, .succObj _ => true
  | .failed, .failObj _ => true
  | _, _ => false

/-- Default constructor `Result() : state_(uninit) {}`. -/
def mkUninit : Result S F := ⟨.empty, .uninit⟩

/-- Value constructor `Result(const SucceededType &src) { allocate(&src, succeeded); }`. -/
def ofSucc (s : S) : Result S F := ⟨.succObj s, .succeeded⟩

/-- Value constructor `Result(SucceededType &&src) { allocate_move(&src, succeeded); }`. -/
def ofSuccMove (s : S) : Result S F := ⟨.succObj s, .succeeded⟩

/-- Value constructor `Result(const FailedType &src) { allocate(&src, failed); }`. -/
def ofFail (f : F) : Result S F := ⟨.failObj f, .failed⟩

/-- Value constructor `Result(FailedType &&src) { allocate_move(&src, failed); }`. -/
def ofFailMove (f : F) : Result S F := ⟨.failObj f, .failed⟩

/-- Private helper `allocate(const void *src, State srcState)`: placement
copy-constructs the payload read from `src` at the given discriminant, then
sets `state_ = srcState`.  The switch has no `uninit` case, so nothing is
constructed then. -/
def allocate (src : Storage S F) (srcState : StateV) : Result S F × List Ev :=
  match srcState with
  | .succeeded => (⟨.succObj (readS src), .succeeded⟩, [Ev.copyCtor])
  | .failed => (⟨.failObj (readF src), .failed⟩, [Ev.copyCtor])
  | s => (⟨.empty, s⟩, [])

/-- Private helper `allocate(State state)`: placement default-constructs the
payload for the given discriminant and sets `state_`. -/
def allocateDefault (state : StateV) : Result S F × List Ev :=
  match state with
  | .succeeded => (⟨.succObj default, .succeeded⟩, [Ev.defaultCtor])
  | .failed => (⟨.failObj default, .failed⟩, [Ev.defaultCtor])
  | s => (⟨.empty, s⟩, [])

/-- Private helper `allocate_move(void *src, State srcState)`: placement
move-constructs the payload from `src`, then sets `state_`. -/
def allocateMove (src : Storage S F) (srcState : StateV) : Result S F × List Ev :=
  match srcState with
  | .succeeded => (⟨.succObj (readS src), .succeeded⟩, [Ev.moveCtor])
  | .failed => (⟨.failObj (readF src), .failed⟩, [Ev.moveCtor])
  | s => (⟨.empty, s⟩, [])

/-- Copy constructor `Result(const Result &src) { if(src.state_ == uninit) return;
allocate(src.storage_, src.state_); }`.  Note the early return: unlike the move
constructor there is no `: state_(uninit)` member initializer, so on the uninit
path `state_` of the new object is left indeterminate (`indet`). -/
def copyCtor (src : Result S F) : Result S F × List Ev :=
  if src.state_ = .uninit then (⟨.empty, .indet⟩, [])
  else allocate src.storage_ src.state_

/-- Move constructor `Result(Result &&src) : state_(uninit) { if(src.state_ == uninit)
return; allocate_move(&src.storage_, src.state_); }`.  Returns the constructed
object, the moved-from source (whose payload is moved-from but whose own
`state_` is untouched by `allocate_move`), and the payload events. -/
def moveCtor (src : Result S F) : Result S F × Result S F × List Ev :=
  if src.state_ = .uninit then (⟨.empty, .uninit⟩, src, [])
  else
    let (r, evs) := allocateMove src.storage_ src.state_
    (r, src, evs)

/-- Private helper `destroy()`: invokes the live payload's destructor (via
`Destoroyer`) and resets the discriminant to `uninit`. -/
def destroy (r : Result S F) : Result S F × List Ev :=
  match r.state_ with
  | .succeeded => (⟨.empty, .uninit⟩, [Ev.dtor])
  | .failed => (⟨.empty, .uninit⟩, [Ev.dtor])
  | _ => (⟨r.storage_, .uninit⟩, [])

/-- Private helper `substitute(const void *src, State srcState)` for a source
that does not alias this object's own buffer: destroy the current payload if
any, placement default-construct the payload of the new kind, copy-assign the
source payload into it, set `state_ = srcState`. -/
def substitute (r : Result S F) (src : Storage S F) (srcState : StateV) :
    Result S F × List Ev :=
  let p1 := if r.state_ ≠ .uninit then r.destroy else (r, [])
  let p2 := if srcState ≠ .uninit then (allocateDefault srcState : Result S F × List Ev)
            else (p1.1, [])
  match srcState with
  | .succeeded => (⟨.succObj (readS src), .succeeded⟩, p1.2 ++ p2.2 ++ [Ev.copyAsgn])
  | .failed => (⟨.failObj (readF src), .failed⟩, p1.2 ++ p2.2 ++ [Ev.copyAsgn])
  | s => (⟨p2.1.storage_, s⟩, p1.2 ++ p2.2)

/-- Private helper `substitute_move(void *src, State srcState)`: as `substitute`
but the final write uses the payload's move-assignment operator.  The source
`Result` object that owns `src` is not written to at all (in particular its
`state_` is untouched); only its payload is moved from. -/
def substituteMove (r : Result S F) (src : Storage S F) (srcState : StateV) :
    Result S F × List Ev :=
  let p1 := if r.state_ ≠ .uninit then r.destroy else (r, [])
  let p2 := if srcState ≠ .uninit then (allocateDefault srcState : Result S F × List Ev)
            else (p1.1, [])
  match srcState with
  | .succeeded => (⟨.succObj (readS src), .succeeded⟩, p1.2 ++ p2.2 ++ [Ev.moveAsgn])
  | .failed => (⟨.failObj (readF src), .failed⟩, p1.2 ++ p2.2 ++ [Ev.moveAsgn])
  | s => (⟨p2.1.storage_, s⟩, p1.2 ++ p2.2)

/-- `operator=(const SucceededType &rhs) { return substitute(&rhs, succeeded); }` -/
def asgnSucc (r : Result S F) (s : S) : Result S F × List Ev :=
  r.substitute (.succObj s) .succeeded

/-- `operator=(SucceededType &&rhs) { return substitute_move(&rhs, succeeded); }` -/
def asgnSuccMove (r : Result S F) (s : S) : Result S F × List Ev :=
  r.substituteMove (.succObj s) .succeeded

/-- `operator=(const FailedType &rhs) { return substitute(&rhs, failed); }` -/
def asgnFail (r : Result S F) (f : F) : Result S F × List Ev :=
  r.substitute (.failObj f) .failed

/-- `operator=(FailedType &&rhs) { return substitute_move(&rhs, failed); }` -/
def asgnFailMove (r : Result S F) (f : F) : Result S F × List Ev :=
  r.substituteMove (.failObj f) .failed

/-- `operator=(const Result &rhs) { return substitute(rhs.storage_, rhs.state_); }`
for `&rhs != this`. -/
def asgnCopy (r rhs : Result S F) : Result S F × List Ev :=
  r.substitute rhs.storage_ rhs.state_

/-- `operator=(Result &&rhs) { return substitute_move(rhs.storage_, rhs.state_); }`
for `&rhs != this`.  Returns the assigned-to object, the moved-from `rhs`
(payload moved-from, own `state_` untouched), and the events. -/
def asgnMove (r rhs : Result S F) : Result S F × Result S F × List Ev :=
  let p := r.substituteMove rhs.storage_ rhs.state_
  (p.1, rhs, p.2)

/-- `operator=(const Result &rhs)` when `&rhs == this`: `substitute` is entered
with `src` aliasing this object's own buffer and `srcState` a by-value copy of
the original discriminant, so after destroy-and-default-construct the final
copy-assignment reads the payload default-constructed a moment before. -/
def selfAsgn (r : Result S F) : Result S F × List Ev :=
  let p1 := if r.state_ ≠ .uninit then r.destroy else (r, [])
  let p2 := if r.state_ ≠ .uninit then (allocateDefault r.state_ : Result S F × List Ev)
            else (p1.1, [])
  match r.state_ with
  | .succeeded => (⟨.succObj (readS p2.1.storage_), .succeeded⟩, p1.2 ++ p2.2 ++ [Ev.copyAsgn])
  | .failed => (⟨.failObj (readF p2.1.storage_), .failed⟩, p1.2 ++ p2.2 ++ [Ev.copyAsgn])
  | s => (⟨p2.1.storage_, s⟩, p1.2 ++ p2.2)

/-- `operator bool() const { return state_ == succeeded; }` -/
def opBool (r : Result S F) : Bool := r.state_ = .succeeded

/-- Const `operator*`: throws `CantDereference` unless the discriminant is
`succeeded`, otherwise returns the buffer read as an `S`. -/
def derefC (r : Result S F) : Except Err S :=
  if r.opBool then .ok (readS r.storage_) else .error .cantDereference

/-- Non-const `operator*` delegates to the const overload via `const_cast`. -/
def deref (r : Result S F) : Except Err S := r.derefC

/-- Const `operator->`: same guard as `operator*`, returns a pointer to the
buffer read as an `S`. -/
def arrowC (r : Result S F) : Except Err S :=
  if r.opBool then .ok (readS r.storage_) else .error .cantDereference

/-- `fail()`: returns the buffer read as an `F` when the discriminant is
`failed`, otherwise throws `NotHaveFailedObject`. -/
def fail (r : Result S F) : Except Err F :=
  if r.state_ = .failed then .ok (readF r.storage_) else .error .notHaveFailedObject

end Result

/-!
Part 2 — `aslib::DeepCopyPtr<Type>` (src/include/aslib/DeepCopyPtr.hpp).

The class template is modelled at a representative instantiation
`DeepCopyPtr<C>` over the two-class hierarchy of the repository's own tests
(`struct C { int i_; }; struct D : C;`), with the derived type given one
extra field `j` so that slicing a derived object to its `C` subobject is
observable.  Heap allocations are explicit: a cell records the dynamic type
the object was allocated with and its fields.
-/

/-- Dynamic types of the modelled hierarchy: the element type `C` and its
derived type `D`. -/
inductive Dyn
  | tyC
  | tyD
deriving DecidableEq, Repr

/-- A heap object: the dynamic type it was allocated with and its fields
(`objD` carries the `C` subobject field `i` plus the extra derived field `j`). -/
inductive HVal
  | objC (i : Int)
  | objD (i : Int) (j : Int)
deriving DecidableEq, Repr

/-- The dynamic type of an allocation. -/
def HVal.dynTy : HVal → Dyn
  | .objC _ => .tyC
  | .objD _ _ => .tyD

/-- The element type's copy constructor `C(const C &)`: copies only the `C`
subobject, slicing a derived argument. -/
def HVal.copyAsC : HVal → HVal
  | .objC i => .objC i
  | .objD i _ => .objC i

/-- The derived type's copy constructor `D(const D &)`.  It is only ever
applied to a `D` lvalue; the `objC` case is unreachable junk. -/
def HVal.copyAsD : HVal → HVal
  | .objC i => .objD i 0
  | .objD i j => .objD i j

/-- An explicit heap: a bump allocator counter and the list of live cells. -/
structure Heap where
  next : Nat
  live : List (Nat × HVal)
deriving DecidableEq, Repr

namespace Heap

/-- Reading the object at an address; `none` when the address is not live. -/
def read (h : Heap) (a : Nat) : Option HVal :=
  (h.live.find? (fun c => c.1 == a)).map (fun c => c.2)

/-- `new`: allocates a fresh cell and returns the new heap and the address. -/
def alloc (h : Heap) (v : HVal) : Heap × Nat :=
  (⟨h.next + 1, (h.next, v) :: h.live⟩, h.next)

/-- `delete`: removes the cell at the address from the live set. -/
def free (h : Heap) (a : Nat) : Heap :=
  ⟨h.next, h.live.filter (fun c => c.1 != a)⟩

/-- Allocator sanity: every live address was produced by `alloc`, so it is
below the bump counter. -/
def wfb (h : Heap) : Bool :=
  h.live.all (fun c => decide (c.1 < h.next))

end Heap

/-- A deletion event: the address freed, the dynamic type of the allocation
that was freed, and the `TargetType` of the `Deleter<TargetType>` that freed
it — `delete static_cast<TargetType *>(p)` invokes `~TargetType` (the
hierarchy has no virtual destructors). -/
structure DelEv where
  addr : Nat
  allocTy : Option Dyn
  delTy : Dyn
deriving DecidableEq, Repr

/-- State of one `DeepCopyPtr<C>` object: the held pointer `ptr_` (an address
or null) and the dynamic deleter `deleter_` (`some t` models a heap-allocated
`Deleter<t>`, `none` the null deleter pointer). -/
structure DeepCopyPtr where
  ptr_ : Option Nat
  deleter_ : Option Dyn
deriving DecidableEq, Repr

namespace DeepCopyPtr

/-- `get()`. -/
def get (p : DeepCopyPtr) : Option Nat := p.ptr_

/-- `operator bool() const { return get() != 0; }` -/
def opBool (p : DeepCopyPtr) : Bool := p.ptr_.isSome

/-- `operator==(const ThisType &rhs)`: identity comparison on the held address. -/
def opEq (p q : DeepCopyPtr) : Bool := p.ptr_ == q.ptr_

/-- Default constructor `DeepCopyPtr() : ptr_(0), deleter_(0)`. -/
def mkNull : DeepCopyPtr := ⟨none, none⟩

/-- `explicit DeepCopyPtr(element_type *p) : ptr_(p), deleter_(p ? new
Deleter<element_type>() : 0)`: adopts the pointer, binds `Deleter<C>`. -/
def ctorFromCPtr (p : Option Nat) : DeepCopyPtr :=
  ⟨p, p.map fun _ => Dyn.tyC⟩

/-- Template constructor `DeepCopyPtr(DerivedType *p)` with `DerivedType = D`:
adopts the pointer, binds `Deleter<D>` (the pointee's true type). -/
def ctorFromDPtr (p : Option Nat) : DeepCopyPtr :=
  ⟨p, p.map fun _ => Dyn.tyD⟩

/-- Same-instantiation copy constructor `DeepCopyPtr(const ThisType &src) :
ptr_(src.get() ? new element_type(*(src.get())) : 0), deleter_(src.get() ?
new Deleter<element_type>() : 0)`.  Note it clones with the element type's
copy constructor and binds `Deleter<element_type>` regardless of the source
pointee's dynamic type. -/
def copyCtor (h : Heap) (src : DeepCopyPtr) : Heap × DeepCopyPtr :=
  match src.ptr_ with
  | none => (h, ⟨none, none⟩)
  | some a =>
    let p := h.alloc (((h.read a).getD (.objC 0)).copyAsC)
    (p.1, ⟨some p.2, some .tyC⟩)

/-- Cross-instantiation copy constructor `DeepCopyPtr(const DeepCopyPtr<SomeType>
&src)` with `SomeType = D`: clones with `new SomeType(*(src.get()))` and binds
`Deleter<SomeType>`. -/
def copyCtorFromD (h : Heap) (src : DeepCopyPtr) : Heap × DeepCopyPtr :=
  match src.ptr_ with
  | none => (h, ⟨none, none⟩)
  | some a =>
    let p := h.alloc (((h.read a).getD (.objD 0 0)).copyAsD)
    (p.1, ⟨some p.2, some .tyD⟩)

/-- `DeepCopyPtr(const element_type *src)`: a pointer-to-const is a named value,
so it is cloned with the element type's copy constructor, never adopted. -/
def ctorFromConstCPtr (h : Heap) (src : Option Nat) : Heap × DeepCopyPtr :=
  match src with
  | none => (h, ⟨none, none⟩)
  | some a =>
    let p := h.alloc (((h.read a).getD (.objC 0)).copyAsC)
    (p.1, ⟨some p.2, some .tyC⟩)

/-- `doDelete()`: returns at once when the deleter is null; otherwise runs
`(*deleter_)(ptr_)` — `delete static_cast<TargetType *>(ptr_)`, a no-op on a
null pointer — deletes the deleter itself, and nulls both members. -/
def doDelete (h : Heap) (p : DeepCopyPtr) : Heap × DeepCopyPtr × List DelEv :=
  match p.deleter_ with
  | none => (h, p, [])
  | some dt =>
    match p.ptr_ with
    | none => (h, ⟨none, none⟩, [])
    | some a => (h.free a, ⟨none, none⟩, [⟨a, (h.read a).map HVal.dynTy, dt⟩])

/-- `swap(ThisType &other)`: exchanges `ptr_` and `deleter_`. -/
def swap (p q : DeepCopyPtr) : DeepCopyPtr × DeepCopyPtr := (q, p)

/-- `reset(element_type *p = 0)`: no-op when `p == ptr_`; otherwise
`ThisType(p).swap(*this)` — the temporary adopts `p`, the swap hands it the old
members, and its destructor frees the old pointee. -/
def resetC (h : Heap) (self : DeepCopyPtr) (p : Option Nat) :
    Heap × DeepCopyPtr × List DelEv :=
  if p == self.ptr_ then (h, self, [])
  else
    let s := swap (ctorFromCPtr p) self
    let d := doDelete h s.1
    (d.1, s.2, d.2.2)

/-- Template `reset(Other *p)` with `Other = D`: as `resetC` but with no
self-pointer guard and a `Deleter<D>` binding. -/
def resetD (h : Heap) (self : DeepCopyPtr) (p : Option Nat) :
    Heap × DeepCopyPtr × List DelEv :=
  let s := swap (ctorFromDPtr p) self
  let d := doDelete h s.1
  (d.1, s.2, d.2.2)

/-- `operator=(const ThisType &rhs)` when `this != &rhs`: `doDelete()`, then if
`rhs` is non-null clone with `new element_type(*rhs.ptr_)` and bind
`Deleter<element_type>`. -/
def asgn (h : Heap) (self rhs : DeepCopyPtr) : Heap × DeepCopyPtr × List DelEv :=
  let d := doDelete h self
  match rhs.ptr_ with
  | none => (d.1, d.2.1, d.2.2)
  | some a =>
    let p := d.1.alloc (((d.1.read a).getD (.objC 0)).copyAsC)
    (p.1, ⟨some p.2, some .tyC⟩, d.2.2)

/-- `operator=(const ThisType &rhs)` when `this == &rhs`: the guard
`if(this == &rhs) return *this;` makes self-assignment an immediate no-op. -/
def asgnSelf (h : Heap) (self : DeepCopyPtr) : Heap × DeepCopyPtr × List DelEv :=
  (h, self, [])

/-- Template `operator=(const DeepCopyPtr<DerivedType> &rhs)` with
`DerivedType = D`: `doDelete()`, then if `rhs` is non-null it clones with
`new element_type(*rhs.get())` — the element type's copy constructor, slicing
the derived pointee — yet binds `new Deleter<DerivedType>()`. -/
def asgnFromD (h : Heap) (self rhs : DeepCopyPtr) : Heap × DeepCopyPtr × List DelEv :=
  let d := doDelete h self
  match rhs.ptr_ with
  | none => (d.1, d.2.1, d.2.2)
  | some a =>
    let p := d.1.alloc (((d.1.read a).getD (.objC 0)).copyAsC)
    (p.1, ⟨some p.2, some .tyD⟩, d.2.2)

/-- `operator=(const element_type *const rhs)`: no-op when `get() == rhs`;
otherwise `doDelete()`, then `ptr_ = rhs ? new element_type(*rhs) : 0` and —
unconditionally — `deleter_ = new Deleter<element_type>()`. -/
def asgnCPtr (h : Heap) (self : DeepCopyPtr) (rhs : Option Nat) :
    Heap × DeepCopyPtr × List DelEv :=
  if self.ptr_ == rhs then (h, self, [])
  else
    let d := doDelete h self
    match rhs with
    | none => (d.1, ⟨none, some .tyC⟩, d.2.2)
    | some a =>
      let p := d.1.alloc (((d.1.read a).getD (.objC 0)).copyAsC)
      (p.1, ⟨some p.2, some .tyC⟩, d.2.2)

/-- Template `operator=(const SomeType *const rhs)` with `SomeType = D`:
`doDelete()`, then `ptr_ = rhs ? new SomeType(*rhs) : 0` and — unconditionally —
`deleter_ = new Deleter<SomeType>()`. -/
def asgnDPtr (h : Heap) (self : DeepCopyPtr) (rhs : Option Nat) :
    Heap × DeepCopyPtr × List DelEv :=
  let d := doDelete h self
  match rhs with
  | none => (d.1, ⟨none, some .tyD⟩, d.2.2)
  | some a =>
    let p := d.1.alloc (((d.1.read a).getD (.objD 0 0)).copyAsD)
    (p.1, ⟨some p.2, some .tyD⟩, d.2.2)

/-- The held pointer, when non-null, points at a live heap cell. -/
def wfp (h : Heap) (p : DeepCopyPtr) : Bool :=
  match p.ptr_ with
  | none => true
  | some a => (h.read a).isSome

end DeepCopyPtr

/-! Helper lemmas about the explicit heap. -/

theorem find_filter_ne (a b : Nat) (hne : b ≠ a) (l : List (Nat × HVal)) :
    (l.filter (fun c => c.1 != a)).find? (fun c => c.1 == b)
      = l.find? (fun c => c.1 == b) := by
  induction l with
  | nil => rfl
  | cons hd tl ih =>
    rw [List.filter_cons]
    by_cases h1 : hd.1 = a
    · have hpa : (hd.1 != a) = false := by simp [h1]
      have hb : (hd.1 == b) = false := by
        rw [h1]
        simp only [beq_eq_false_iff_ne, ne_eq]
        exact fun hh => hne hh.symm
      rw [hpa]
      simp only [Bool.false_eq_true, if_false, List.find?_cons, hb, ih]
    · have hpa : (hd.1 != a) = true := by simp [h1]
      rw [hpa]
      simp only [if_true, List.find?_cons, ih]

theorem Heap.read_free_ne (h : Heap) (a b : Nat) (hne : b ≠ a) :
    (h.free a).read b = h.read b := by
  unfold Heap.read Heap.free
  rw [find_filter_ne a b hne]

theorem Heap.read_alloc_self (h : Heap) (v : HVal) :
    ((h.alloc v).1).read h.next = some v := by
  unfold Heap.read Heap.alloc
  simp [List.find?_cons]

theorem Heap.read_alloc_ne (h : Heap) (v : HVal) (b : Nat) (hb : b ≠ h.next) :
    ((h.alloc v).1).read b = h.read b := by
  unfold Heap.read Heap.alloc
  have : (h.next == b) = false := by
    simp only [beq_eq_false_iff_ne, ne_eq]
    exact fun hh => hb hh.symm
  simp [List.find?_cons, this]

theorem Heap.live_addr_lt (h : Heap) (a : Nat) (hw : h.wfb = true)
    (hr : (h.read a).isSome = true) : a < h.next := by
  unfold Heap.read at hr
  unfold Heap.wfb at hw
  cases hfind : h.live.find? (fun c => c.1 == a) with
  | none => rw [hfind] at hr; simp at hr
  | some c =>
    have hmem : c ∈ h.live := List.mem_of_find?_eq_some hfind
    have hpred := List.find?_some hfind
    have hca : c.1 = a := by simpa using hpred
    have hlt := List.all_eq_true.mp hw c hmem
    simp only [decide_eq_true_eq] at hlt
    omega

/-! Claims C1, C2, C3, C9, C10 — `DeepCopyPtr`. -/

/-- C1 (counterexample). The claim says copy-constructing from an instance
holding a derived-type pointee yields a clone allocated with the source's true
dynamic type `D`, equal by value to the source pointee, whose destruction
invokes `D`'s destructor.  At the concrete scenario
`DeepCopyPtr<C> b = new D(1, 2); DeepCopyPtr<C> b2(b);` the code instead
allocates the clone with `new element_type(*(b.get()))`: the clone lives at a
fresh address but is a sliced `C` object, not a `D`, it is not equal by value
to the source pointee (the derived field is lost), and destroying `b2` runs
`Deleter<C>`, invoking `C`'s destructor. -/
theorem C1_counterexample :
    (DeepCopyPtr.ctorFromDPtr (some 0) = ⟨some 0, some Dyn.tyD⟩)
    ∧ ((DeepCopyPtr.copyCtor ⟨1, [(0, HVal.objD 1 2)]⟩ ⟨some 0, some Dyn.tyD⟩).2.get = some 1)
    ∧ (((DeepCopyPtr.copyCtor ⟨1, [(0, HVal.objD 1 2)]⟩ ⟨some 0, some Dyn.tyD⟩).1).read 1
        = some (HVal.objC 1))
    ∧ ¬ ((((DeepCopyPtr.copyCtor ⟨1, [(0, HVal.objD 1 2)]⟩ ⟨some 0, some Dyn.tyD⟩).1).read 1).map
          HVal.dynTy = some Dyn.tyD)
    ∧ ¬ (((DeepCopyPtr.copyCtor ⟨1, [(0, HVal.objD 1 2)]⟩ ⟨some 0, some Dyn.tyD⟩).1).read 1
          = some (HVal.objD 1 2))
    ∧ ((DeepCopyPtr.doDelete (DeepCopyPtr.copyCtor ⟨1, [(0, HVal.objD 1 2)]⟩ ⟨some 0, some Dyn.tyD⟩).1
          (DeepCopyPtr.copyCtor ⟨1, [(0, HVal.objD 1 2)]⟩ ⟨some 0, some Dyn.tyD⟩).2).2.2
        = [⟨1, some Dyn.tyC, Dyn.tyC⟩]) := by decide

/-- C1 (amended). Copy-constructing a `DeepCopyPtr<C>` from a non-null source
yields a pointee at a fresh address, distinct from the source's, whose value is
the element type's copy (the `C` subobject, slicing a derived pointee), always
allocated with dynamic type `C` — the static element type, not the source's
true dynamic type — with the new capability bound to `Deleter<C>`; destroying
the copy invokes `C`'s destructor. -/
theorem C1_amended (h : Heap) (src : DeepCopyPtr) (a : Nat) (v : HVal)
    (hw : h.wfb = true) (hp : src.ptr_ = some a) (hl : h.read a = some v) :
    (DeepCopyPtr.copyCtor h src).2.get = some h.next
    ∧ h.next ≠ a
    ∧ (DeepCopyPtr.copyCtor h src).1.read h.next = some v.copyAsC
    ∧ v.copyAsC.dynTy = Dyn.tyC
    ∧ (DeepCopyPtr.copyCtor h src).2.deleter_ = some Dyn.tyC
    ∧ (DeepCopyPtr.doDelete (DeepCopyPtr.copyCtor h src).1
        (DeepCopyPtr.copyCtor h src).2).2.2 = [⟨h.next, some Dyn.tyC, Dyn.tyC⟩] := by
  have hlt : a < h.next := Heap.live_addr_lt h a hw (by rw [hl]; rfl)
  have hcc : DeepCopyPtr.copyCtor h src
      = ((h.alloc v.copyAsC).1, ⟨some h.next, some Dyn.tyC⟩) := by
    simp [DeepCopyPtr.copyCtor, hp, hl, Heap.alloc]
  have hread := Heap.read_alloc_self h v.copyAsC
  have hdyn : v.copyAsC.dynTy = Dyn.tyC := by cases v <;> rfl
  rw [hcc]
  refine ⟨rfl, by omega, hread, hdyn, rfl, ?_⟩
  simp [DeepCopyPtr.doDelete, hread, hdyn]

/-- Witness for C1 (amended) at `DeepCopyPtr<C> b = new D(3, 4)`. -/
theorem C1_amended_witness :
    ((⟨1, [(0, HVal.objD 3 4)]⟩ : Heap).wfb = true
      ∧ (⟨some 0, some Dyn.tyD⟩ : DeepCopyPtr).ptr_ = some 0
      ∧ (⟨1, [(0, HVal.objD 3 4)]⟩ : Heap).read 0 = some (HVal.objD 3 4))
    ∧ ((DeepCopyPtr.copyCtor ⟨1, [(0, HVal.objD 3 4)]⟩ ⟨some 0, some Dyn.tyD⟩).2.get
          = some (⟨1, [(0, HVal.objD 3 4)]⟩ : Heap).next
      ∧ (⟨1, [(0, HVal.objD 3 4)]⟩ : Heap).next ≠ 0
      ∧ (DeepCopyPtr.copyCtor ⟨1, [(0, HVal.objD 3 4)]⟩ ⟨some 0, some Dyn.tyD⟩).1.read
          (⟨1, [(0, HVal.objD 3 4)]⟩ : Heap).next = some (HVal.objD 3 4).copyAsC
      ∧ (HVal.objD 3 4).copyAsC.dynTy = Dyn.tyC
      ∧ (DeepCopyPtr.copyCtor ⟨1, [(0, HVal.objD 3 4)]⟩ ⟨some 0, some Dyn.tyD⟩).2.deleter_
          = some Dyn.tyC
      ∧ (DeepCopyPtr.doDelete
            (DeepCopyPtr.copyCtor ⟨1, [(0, HVal.objD 3 4)]⟩ ⟨some 0, some Dyn.tyD⟩).1
            (DeepCopyPtr.copyCtor ⟨1, [(0, HVal.objD 3 4)]⟩ ⟨some 0, some Dyn.tyD⟩).2).2.2
          = [⟨(⟨1, [(0, HVal.objD 3 4)]⟩ : Heap).next, some Dyn.tyC, Dyn.tyC⟩]) :=
  ⟨⟨by decide, rfl, by decide⟩,
    C1_amended ⟨1, [(0, HVal.objD 3 4)]⟩ ⟨some 0, some Dyn.tyD⟩ 0 (HVal.objD 3 4)
      (by decide) rfl (by decide)⟩

/-- C2 (code bug, evaluated). The claim states the invariant that `deleter_` is
non-null iff `ptr_` is non-null and that the capability's remembered type
equals the pointee's true allocation type.  The constructors maintain it
(`p ? new Deleter<...>() : 0`), but the pointer assignment operators set
`deleter_ = new Deleter<...>()` unconditionally, so
`DeepCopyPtr<C> p(new C(1)); p = static_cast<const C *>(0);` leaves `ptr_`
null with `deleter_` non-null; and the cross-instantiation
`operator=(const DeepCopyPtr<D> &)` allocates the clone with
`new element_type(...)` (a `C`) while remembering `Deleter<D>`. -/
theorem C2_bug_eval :
    ((DeepCopyPtr.asgnCPtr ⟨1, [(0, HVal.objC 1)]⟩ ⟨some 0, some Dyn.tyC⟩ none).2.1
        = ⟨none, some Dyn.tyC⟩)
    ∧ ¬ (((DeepCopyPtr.asgnCPtr ⟨1, [(0, HVal.objC 1)]⟩ ⟨some 0, some Dyn.tyC⟩ none).2.1.deleter_.isSome)
          = ((DeepCopyPtr.asgnCPtr ⟨1, [(0, HVal.objC 1)]⟩ ⟨some 0, some Dyn.tyC⟩ none).2.1.ptr_.isSome))
    ∧ ((DeepCopyPtr.asgnDPtr ⟨0, []⟩ DeepCopyPtr.mkNull none).2.1 = ⟨none, some Dyn.tyD⟩)
    ∧ ((DeepCopyPtr.asgnFromD ⟨1, [(0, HVal.objD 1 2)]⟩ DeepCopyPtr.mkNull
          ⟨some 0, some Dyn.tyD⟩).2.1.deleter_ = some Dyn.tyD)
    ∧ (((DeepCopyPtr.asgnFromD ⟨1, [(0, HVal.objD 1 2)]⟩ DeepCopyPtr.mkNull
          ⟨some 0, some Dyn.tyD⟩).1).read 1 = some (HVal.objC 1))
    ∧ ((HVal.objC 1).dynTy ≠ Dyn.tyD) := by decide

/-- C3 (counterexample). The claim says assignment from a raw non-const
pointer adopts the pointer.  At `DeepCopyPtr<D> dsp; D *dlp = new D(1, 2);
dsp = dlp;` (the repository's own test `testOpequal_lp_toSame`) the code
instead clones: the held address is a fresh allocation, not `dlp`, and the
source object stays alive at its original address. -/
theorem C3_counterexample :
    ¬ ((DeepCopyPtr.asgnDPtr ⟨1, [(0, HVal.objD 1 2)]⟩ DeepCopyPtr.mkNull (some 0)).2.1.get
        = some 0)
    ∧ ((DeepCopyPtr.asgnDPtr ⟨1, [(0, HVal.objD 1 2)]⟩ DeepCopyPtr.mkNull (some 0)).2.1.get
        = some 1)
    ∧ (((DeepCopyPtr.asgnDPtr ⟨1, [(0, HVal.objD 1 2)]⟩ DeepCopyPtr.mkNull (some 0)).1).read 0
        = some (HVal.objD 1 2)) := by decide

/-- C3 (amended). Assignment always destroys the current pointee first
(exactly one deletion event, at the old pointee's address, for every non-null
target), and for every accepted non-null source — another `DeepCopyPtr` (same
or derived instantiation), a pointer-to-const, or a raw non-const pointer — it
clones into a fresh allocation distinct from the source's address (it never
adopts); assigning a null source of any accepted form to a non-null instance
leaves the held pointer null with the prior pointee destroyed exactly once. -/
theorem C3_amended (h : Heap) (self rhs : DeepCopyPtr) (a b : Nat) (v : HVal)
    (hw : h.wfb = true) (hp : self.ptr_ = some a) (hd : self.deleter_.isSome = true)
    (hrp : rhs.ptr_ = some b) (hb : h.read b = some v) (hne : a ≠ b) :
    ((DeepCopyPtr.asgn h self DeepCopyPtr.mkNull).2.1.get = none
      ∧ (DeepCopyPtr.asgn h self DeepCopyPtr.mkNull).2.2.length = 1)
    ∧ ((DeepCopyPtr.asgnFromD h self DeepCopyPtr.mkNull).2.1.get = none
      ∧ (DeepCopyPtr.asgnFromD h self DeepCopyPtr.mkNull).2.2.length = 1)
    ∧ ((DeepCopyPtr.asgnCPtr h self none).2.1.get = none
      ∧ (DeepCopyPtr.asgnCPtr h self none).2.2.length = 1)
    ∧ ((DeepCopyPtr.asgnDPtr h self none).2.1.get = none
      ∧ (DeepCopyPtr.asgnDPtr h self none).2.2.length = 1)
    ∧ ((DeepCopyPtr.asgn h self rhs).2.1.get = some h.next
      ∧ h.next ≠ b
      ∧ (DeepCopyPtr.asgn h self rhs).1.read h.next = some v.copyAsC
      ∧ (DeepCopyPtr.asgn h self rhs).2.2.map DelEv.addr = [a])
    ∧ ((DeepCopyPtr.asgnFromD h self rhs).2.1.get = some h.next
      ∧ h.next ≠ b
      ∧ (DeepCopyPtr.asgnFromD h self rhs).1.read h.next = some v.copyAsC
      ∧ (DeepCopyPtr.asgnFromD h self rhs).2.2.map DelEv.addr = [a])
    ∧ ((DeepCopyPtr.asgnCPtr h self (some b)).2.1.get = some h.next
      ∧ h.next ≠ b
      ∧ (DeepCopyPtr.asgnCPtr h self (some b)).1.read h.next = some v.copyAsC
      ∧ (DeepCopyPtr.asgnCPtr h self (some b)).2.2.map DelEv.addr = [a])
    ∧ ((DeepCopyPtr.asgnDPtr h self (some b)).2.1.get = some h.next
      ∧ h.next ≠ b
      ∧ (DeepCopyPtr.asgnDPtr h self (some b)).1.read h.next = some v.copyAsD
      ∧ (DeepCopyPtr.asgnDPtr h self (some b)).2.2.map DelEv.addr = [a]) := by
  obtain ⟨dt, hdt⟩ := Option.isSome_iff_exists.mp hd
  have hblt : b < h.next := Heap.live_addr_lt h b hw (by rw [hb]; rfl)
  have hdel : DeepCopyPtr.doDelete h self
      = (h.free a, ⟨none, none⟩, [⟨a, (h.read a).map HVal.dynTy, dt⟩]) := by
    simp [DeepCopyPtr.doDelete, hdt, hp]
  have hreadb : (h.free a).read b = some v := by
    rw [Heap.read_free_ne h a b (fun hh => hne hh.symm), hb]
  have hguard : (self.ptr_ == (some b : Option Nat)) = false := by
    rw [hp]
    simp [hne]
  have hguard0 : (self.ptr_ == (none : Option Nat)) = false := by
    rw [hp]
    rfl
  refine ⟨⟨?_, ?_⟩, ⟨?_, ?_⟩, ⟨?_, ?_⟩, ⟨?_, ?_⟩,
    ⟨?_, ?_, ?_, ?_⟩, ⟨?_, ?_, ?_, ?_⟩, ⟨?_, ?_, ?_, ?_⟩, ⟨?_, ?_, ?_, ?_⟩⟩
  · simp [DeepCopyPtr.asgn, hdel, DeepCopyPtr.mkNull, DeepCopyPtr.get]
  · simp [DeepCopyPtr.asgn, hdel, DeepCopyPtr.mkNull]
  · simp [DeepCopyPtr.asgnFromD, hdel, DeepCopyPtr.mkNull, DeepCopyPtr.get]
  · simp [DeepCopyPtr.asgnFromD, hdel, DeepCopyPtr.mkNull]
  · simp [DeepCopyPtr.asgnCPtr, hguard0, hdel, DeepCopyPtr.get]
  · simp [DeepCopyPtr.asgnCPtr, hguard0, hdel]
  · simp [DeepCopyPtr.asgnDPtr, hdel, DeepCopyPtr.get]
  · simp [DeepCopyPtr.asgnDPtr, hdel]
  · simp [DeepCopyPtr.asgn, hdel, hrp, hreadb, DeepCopyPtr.get, Heap.alloc, Heap.free]
  · omega
  · simp [DeepCopyPtr.asgn, hdel, hrp, hreadb]
    exact Heap.read_alloc_self (h.free a) v.copyAsC
  · simp [DeepCopyPtr.asgn, hdel, hrp]
  · simp [DeepCopyPtr.asgnFromD, hdel, hrp, hreadb, DeepCopyPtr.get, Heap.alloc, Heap.free]
  · omega
  · simp [DeepCopyPtr.asgnFromD, hdel, hrp, hreadb]
    exact Heap.read_alloc_self (h.free a) v.copyAsC
  · simp [DeepCopyPtr.asgnFromD, hdel, hrp]
  · simp [DeepCopyPtr.asgnCPtr, hguard, hdel, hreadb, DeepCopyPtr.get, Heap.alloc, Heap.free]
  · omega
  · simp [DeepCopyPtr.asgnCPtr, hguard, hdel, hreadb]
    exact Heap.read_alloc_self (h.free a) v.copyAsC
  · simp [DeepCopyPtr.asgnCPtr, hguard, hdel]
  · simp [DeepCopyPtr.asgnDPtr, hdel, hreadb, DeepCopyPtr.get, Heap.alloc, Heap.free]
  · omega
  · simp [DeepCopyPtr.asgnDPtr, hdel, hreadb]
    exact Heap.read_alloc_self (h.free a) v.copyAsD
  · simp [DeepCopyPtr.asgnDPtr, hdel]

/-- Witness for C3 (amended) at a heap holding a `C` at address 0 (the held
pointee) and a `D` at address 1 (the pointee of the non-null assignment
sources, both as a raw pointer and held by another `DeepCopyPtr`). -/
theorem C3_amended_witness :
    ((⟨2, [(0, HVal.objC 1), (1, HVal.objD 3 4)]⟩ : Heap).wfb = true
      ∧ (⟨some 0, some Dyn.tyC⟩ : DeepCopyPtr).ptr_ = some 0
      ∧ (⟨some 0, some Dyn.tyC⟩ : DeepCopyPtr).deleter_.isSome = true
      ∧ (⟨some 1, some Dyn.tyD⟩ : DeepCopyPtr).ptr_ = some 1
      ∧ (⟨2, [(0, HVal.objC 1), (1, HVal.objD 3 4)]⟩ : Heap).read 1 = some (HVal.objD 3 4)
      ∧ (0 : Nat) ≠ 1)
    ∧ (((DeepCopyPtr.asgn ⟨2, [(0, HVal.objC 1), (1, HVal.objD 3 4)]⟩ ⟨some 0, some Dyn.tyC⟩
            DeepCopyPtr.mkNull).2.1.get = none
        ∧ (DeepCopyPtr.asgn ⟨2, [(0, HVal.objC 1), (1, HVal.objD 3 4)]⟩ ⟨some 0, some Dyn.tyC⟩
            DeepCopyPtr.mkNull).2.2.length = 1)
      ∧ ((DeepCopyPtr.asgnFromD ⟨2, [(0, HVal.objC 1), (1, HVal.objD 3 4)]⟩ ⟨some 0, some Dyn.tyC⟩
            DeepCopyPtr.mkNull).2.1.get = none
        ∧ (DeepCopyPtr.asgnFromD ⟨2, [(0, HVal.objC 1), (1, HVal.objD 3 4)]⟩ ⟨some 0, some Dyn.tyC⟩
            DeepCopyPtr.mkNull).2.2.length = 1)
      ∧ ((DeepCopyPtr.asgnCPtr ⟨2, [(0, HVal.objC 1), (1, HVal.objD 3 4)]⟩ ⟨some 0, some Dyn.tyC⟩
            none).2.1.get = none
        ∧ (DeepCopyPtr.asgnCPtr ⟨2, [(0, HVal.objC 1), (1, HVal.objD 3 4)]⟩ ⟨some 0, some Dyn.tyC⟩
            none).2.2.length = 1)
      ∧ ((DeepCopyPtr.asgnDPtr ⟨2, [(0, HVal.objC 1), (1, HVal.objD 3 4)]⟩ ⟨some 0, some Dyn.tyC⟩
            none).2.1.get = none
        ∧ (DeepCopyPtr.asgnDPtr ⟨2, [(0, HVal.objC 1), (1, HVal.objD 3 4)]⟩ ⟨some 0, some Dyn.tyC⟩
            none).2.2.length = 1)
      ∧ ((DeepCopyPtr.asgn ⟨2, [(0, HVal.objC 1), (1, HVal.objD 3 4)]⟩ ⟨some 0, some Dyn.tyC⟩
            ⟨some 1, some Dyn.tyD⟩).2.1.get = some (⟨2, [(0, HVal.objC 1), (1, HVal.objD 3 4)]⟩ : Heap).next
        ∧ (⟨2, [(0, HVal.objC 1), (1, HVal.objD 3 4)]⟩ : Heap).next ≠ 1
        ∧ (DeepCopyPtr.asgn ⟨2, [(0, HVal.objC 1), (1, HVal.objD 3 4)]⟩ ⟨some 0, some Dyn.tyC⟩
            ⟨some 1, some Dyn.tyD⟩).1.read (⟨2, [(0, HVal.objC 1), (1, HVal.objD 3 4)]⟩ : Heap).next
            = some (HVal.objD 3 4).copyAsC
        ∧ (DeepCopyPtr.asgn ⟨2, [(0, HVal.objC 1), (1, HVal.objD 3 4)]⟩ ⟨some 0, some Dyn.tyC⟩
            ⟨some 1, some Dyn.tyD⟩).2.2.map DelEv.addr = [0])
      ∧ ((DeepCopyPtr.asgnFromD ⟨2, [(0, HVal.objC 1), (1, HVal.objD 3 4)]⟩ ⟨some 0, some Dyn.tyC⟩
            ⟨some 1, some Dyn.tyD⟩).2.1.get = some (⟨2, [(0, HVal.objC 1), (1, HVal.objD 3 4)]⟩ : Heap).next
        ∧ (⟨2, [(0, HVal.objC 1), (1, HVal.objD 3 4)]⟩ : Heap).next ≠ 1
        ∧ (DeepCopyPtr.asgnFromD ⟨2, [(0, HVal.objC 1), (1, HVal.objD 3 4)]⟩ ⟨some 0, some Dyn.tyC⟩
            ⟨some 1, some Dyn.tyD⟩).1.read (⟨2, [(0, HVal.objC 1), (1, HVal.objD 3 4)]⟩ : Heap).next
            = some (HVal.objD 3 4).copyAsC
        ∧ (DeepCopyPtr.asgnFromD ⟨2, [(0, HVal.objC 1), (1, HVal.objD 3 4)]⟩ ⟨some 0, some Dyn.tyC⟩
            ⟨some 1, some Dyn.tyD⟩).2.2.map DelEv.addr = [0])
      ∧ ((DeepCopyPtr.asgnCPtr ⟨2, [(0, HVal.objC 1), (1, HVal.objD 3 4)]⟩ ⟨some 0, some Dyn.tyC⟩
            (some 1)).2.1.get = some (⟨2, [(0, HVal.objC 1), (1, HVal.objD 3 4)]⟩ : Heap).next
        ∧ (⟨2, [(0, HVal.objC 1), (1, HVal.objD 3 4)]⟩ : Heap).next ≠ 1
        ∧ (DeepCopyPtr.asgnCPtr ⟨2, [(0, HVal.objC 1), (1, HVal.objD 3 4)]⟩ ⟨some 0, some Dyn.tyC⟩
            (some 1)).1.read (⟨2, [(0, HVal.objC 1), (1, HVal.objD 3 4)]⟩ : Heap).next
            = some (HVal.objD 3 4).copyAsC
        ∧ (DeepCopyPtr.asgnCPtr ⟨2, [(0, HVal.objC 1), (1, HVal.objD 3 4)]⟩ ⟨some 0, some Dyn.tyC⟩
            (some 1)).2.2.map DelEv.addr = [0])
      ∧ ((DeepCopyPtr.asgnDPtr ⟨2, [(0, HVal.objC 1), (1, HVal.objD 3 4)]⟩ ⟨some 0, some Dyn.tyC⟩
            (some 1)).2.1.get = some (⟨2, [(0, HVal.objC 1), (1, HVal.objD 3 4)]⟩ : Heap).next
        ∧ (⟨2, [(0, HVal.objC 1), (1, HVal.objD 3 4)]⟩ : Heap).next ≠ 1
        ∧ (DeepCopyPtr.asgnDPtr ⟨2, [(0, HVal.objC 1), (1, HVal.objD 3 4)]⟩ ⟨some 0, some Dyn.tyC⟩
            (some 1)).1.read (⟨2, [(0, HVal.objC 1), (1, HVal.objD 3 4)]⟩ : Heap).next
            = some (HVal.objD 3 4).copyAsD
        ∧ (DeepCopyPtr.asgnDPtr ⟨2, [(0, HVal.objC 1), (1, HVal.objD 3 4)]⟩ ⟨some 0, some Dyn.tyC⟩
            (some 1)).2.2.map DelEv.addr = [0])) :=
  ⟨⟨by decide, rfl, rfl, rfl, by decide, by decide⟩,
    C3_amended ⟨2, [(0, HVal.objC 1), (1, HVal.objD 3 4)]⟩ ⟨some 0, some Dyn.tyC⟩
      ⟨some 1, some Dyn.tyD⟩ 0 1 (HVal.objD 3 4) (by decide) rfl rfl rfl (by decide)
      (by decide)⟩

/-- C9 (counterexample). The claim says self-assignment degenerates to
destroy-then-reclone, so the held address afterwards is a new allocation.  At
`DeepCopyPtr<C> p(new C(5)); p = p;` the guard `if(this == &rhs) return *this;`
fires: the held address is unchanged, the heap is unchanged, and nothing is
destroyed or allocated. -/
theorem C9_counterexample :
    ((DeepCopyPtr.asgnSelf ⟨1, [(0, HVal.objC 5)]⟩ ⟨some 0, some Dyn.tyC⟩).2.1.get = some 0)
    ∧ ¬ ((DeepCopyPtr.asgnSelf ⟨1, [(0, HVal.objC 5)]⟩ ⟨some 0, some Dyn.tyC⟩).2.1.get ≠ some 0)
    ∧ ((DeepCopyPtr.asgnSelf ⟨1, [(0, HVal.objC 5)]⟩ ⟨some 0, some Dyn.tyC⟩).1
        = ⟨1, [(0, HVal.objC 5)]⟩)
    ∧ ((DeepCopyPtr.asgnSelf ⟨1, [(0, HVal.objC 5)]⟩ ⟨some 0, some Dyn.tyC⟩).2.2 = []) := by
  decide

/-- C9 (amended). Self-assignment is safe because it is a guarded no-op: the
instance, the heap and the event trace are all unchanged (no destruction, no
reclone, same held address); likewise assigning the currently held raw pointer
is a no-op through the `get() == rhs` guard. -/
theorem C9_amended (h : Heap) (p : DeepCopyPtr) :
    (DeepCopyPtr.asgnSelf h p).2.1 = p
    ∧ (DeepCopyPtr.asgnSelf h p).1 = h
    ∧ (DeepCopyPtr.asgnSelf h p).2.2 = []
    ∧ DeepCopyPtr.asgnCPtr h p p.ptr_ = (h, p, []) := by
  refine ⟨rfl, rfl, rfl, ?_⟩
  simp [DeepCopyPtr.asgnCPtr]

/-- C10 (confirmed). Destroying a `DeepCopyPtr` whose held pointer is null
deletes no pointee and is safe: `doDelete` returns at once when no deleter is
present, and with a deleter present it deletes a null pointer, which deletes
nothing — the heap is untouched and no deletion event occurs. -/
theorem C10_null_destroy_safe (h : Heap) (p : DeepCopyPtr) (hp : p.ptr_ = none) :
    (DeepCopyPtr.doDelete h p).1 = h
    ∧ (DeepCopyPtr.doDelete h p).2.2 = []
    ∧ (DeepCopyPtr.doDelete h p).2.1.ptr_ = none := by
  rcases p with ⟨q, del⟩
  cases del <;> simp_all [DeepCopyPtr.doDelete]

/-- Witness for C10 at the null-pointer-with-deleter state that the pointer
assignment operators can produce. -/
theorem C10_witness :
    ((⟨none, some Dyn.tyC⟩ : DeepCopyPtr).ptr_ = none)
    ∧ ((DeepCopyPtr.doDelete ⟨0, []⟩ ⟨none, some Dyn.tyC⟩).1 = ⟨0, []⟩
      ∧ (DeepCopyPtr.doDelete ⟨0, []⟩ ⟨none, some Dyn.tyC⟩).2.2 = []
      ∧ (DeepCopyPtr.doDelete ⟨0, []⟩ ⟨none, some Dyn.tyC⟩).2.1.ptr_ = none) :=
  ⟨rfl, C10_null_destroy_safe ⟨0, []⟩ ⟨none, some Dyn.tyC⟩ rfl⟩

/-! Claims C4, C5, C6, C7, C8 — `Result`. -/

/-- C4 (code bug, evaluated). The claim says copy- or move-constructing from an
Uninit source yields an Uninit result with no payload activity.  The move
constructor has the member initializer `: state_(uninit)` and satisfies this,
but the copy constructor `Result(const Result &src) { if(src.state_ == uninit)
return; ... }` has no initializer for `state_`, so copy-constructing from a
default-constructed `Result` leaves the new object's discriminant
indeterminate rather than Uninit (the repository's own test
`testCopyConstructor` expects the copy to behave as Uninit).  The
Succeeded/Failed cases behave as claimed. -/
theorem C4_bug_eval :
    ((Result.mkUninit : Result Int Int).copyCtor.1.state_ = StateV.indet)
    ∧ StateV.indet ≠ StateV.uninit
    ∧ ((Result.mkUninit : Result Int Int).copyCtor.2 = [])
    ∧ ((Result.mkUninit : Result Int Int).moveCtor.1.state_ = StateV.uninit)
    ∧ ((Result.ofSucc 5 : Result Int Int).copyCtor.1 = Result.ofSucc 5)
    ∧ ((Result.ofSucc 5 : Result Int Int).copyCtor.2 = [Ev.copyCtor])
    ∧ ((Result.ofFail 7 : Result Int Int).moveCtor.1 = Result.ofFail 7)
    ∧ ((Result.ofFail 7 : Result Int Int).moveCtor.2.2 = [Ev.moveCtor]) := by decide

/-- C5 (counterexample). The claim says a Result-to-Result move leaves the
moved-from instance in a clean Uninit state.  Move-constructing from a
Succeeded source leaves the source's discriminant `succeeded` (the move
constructor and `substitute_move` only move from the source's payload and
never write the source's `state_`), and move-assignment behaves the same. -/
theorem C5_counterexample :
    ((Result.ofSucc 5 : Result Int Int).moveCtor.2.1.state_ = StateV.succeeded)
    ∧ ¬ ((Result.ofSucc 5 : Result Int Int).moveCtor.2.1.state_ = StateV.uninit)
    ∧ (((Result.mkUninit : Result Int Int).asgnMove (Result.ofFail 7)).2.1.state_
        = StateV.failed) := by decide

/-- C5 (amended). A Result-to-Result move (move construction or move
assignment) leaves the moved-from instance's own discriminant unchanged, with
its payload in a moved-from but destructible state; moving only the payload
out of a Result likewise does not change that Result's discriminant. -/
theorem C5_amended (S F : Type) [Inhabited S] [Inhabited F] (src r : Result S F) :
    ((Result.moveCtor src).2.1.state_ = src.state_)
    ∧ ((Result.moveCtor src).2.1.storage_ = src.storage_)
    ∧ ((Result.asgnMove r src).2.1 = src) := by
  refine ⟨?_, ?_, rfl⟩ <;> (unfold Result.moveCtor; split <;> rfl)

/-- C6 (confirmed). Every assignment into a `Result` destroys any current
payload first (exactly one payload-destructor run iff the target held a
payload), then constructs the new payload and sets the discriminant to the
source's kind; assigning a Failed value over a Succeeded target leaves it
boolean-false with `fail()` succeeding and the previous payload destroyed
exactly once; and self-assignment runs the destructor at most once. -/
theorem C6_assignment_destroy_then_construct (S F : Type) [Inhabited S] [Inhabited F]
    (r rhs : Result S F) (s : S) (f : F) (hw : r.wf = true) :
    ((r.asgnSucc s).2.count Ev.dtor = if r.state_ = StateV.uninit then 0 else 1)
    ∧ ((r.asgnFail f).2.count Ev.dtor = if r.state_ = StateV.uninit then 0 else 1)
    ∧ ((r.asgnCopy rhs).2.count Ev.dtor = if r.state_ = StateV.uninit then 0 else 1)
    ∧ ((r.asgnSucc s).1 = ⟨.succObj s, .succeeded⟩)
    ∧ ((r.asgnFail f).1 = ⟨.failObj f, .failed⟩)
    ∧ ((r.asgnCopy rhs).1.state_ = rhs.state_)
    ∧ (r.state_ = StateV.succeeded →
        ((r.asgnFail f).1.opBool = false
          ∧ (r.asgnFail f).1.fail = Except.ok f
          ∧ (r.asgnFail f).2.count Ev.dtor = 1))
    ∧ (r.selfAsgn.2.count Ev.dtor ≤ 1) := by
  rcases r with ⟨st, state⟩
  rcases rhs with ⟨rst, rstate⟩
  cases state <;> cases st <;> cases rstate <;>
    simp_all [Result.wf, Result.asgnSucc, Result.asgnFail, Result.asgnCopy, Result.selfAsgn,
      Result.substitute, Result.destroy, Result.allocateDefault, Result.opBool, Result.fail,
      Result.readS, Result.readF, List.count_cons, List.count_nil]

/-- Witness for C6 at `Result<int, int> r(1); r = Result<int, int>(2); ...`
style inputs: target Succeeded holding 1, Result source Failed holding 2,
value sources 3 and 4. -/
theorem C6_witness :
    ((Result.ofSucc 1 : Result Int Int).wf = true)
    ∧ (((Result.ofSucc 1 : Result Int Int).asgnSucc 3).2.count Ev.dtor
          = if (Result.ofSucc 1 : Result Int Int).state_ = StateV.uninit then 0 else 1)
    ∧ (((Result.ofSucc 1 : Result Int Int).asgnFail 4).2.count Ev.dtor
          = if (Result.ofSucc 1 : Result Int Int).state_ = StateV.uninit then 0 else 1)
    ∧ (((Result.ofSucc 1 : Result Int Int).asgnCopy (Result.ofFail 2)).2.count Ev.dtor
          = if (Result.ofSucc 1 : Result Int Int).state_ = StateV.uninit then 0 else 1)
    ∧ (((Result.ofSucc 1 : Result Int Int).asgnSucc 3).1 = ⟨.succObj 3, .succeeded⟩)
    ∧ (((Result.ofSucc 1 : Result Int Int).asgnFail 4).1 = ⟨.failObj 4, .failed⟩)
    ∧ (((Result.ofSucc 1 : Result Int Int).asgnCopy (Result.ofFail 2)).1.state_
          = (Result.ofFail 2 : Result Int Int).state_)
    ∧ ((Result.ofSucc 1 : Result Int Int).state_ = StateV.succeeded →
        (((Result.ofSucc 1 : Result Int Int).asgnFail 4).1.opBool = false
          ∧ ((Result.ofSucc 1 : Result Int Int).asgnFail 4).1.fail = Except.ok 4
          ∧ ((Result.ofSucc 1 : Result Int Int).asgnFail 4).2.count Ev.dtor = 1))
    ∧ ((Result.ofSucc 1 : Result Int Int).selfAsgn.2.count Ev.dtor ≤ 1) :=
  ⟨by decide,
    C6_assignment_destroy_then_construct Int Int (Result.ofSucc 1) (Result.ofFail 2) 3 4
      (by decide)⟩

/-- C7 (confirmed). Dereferencing (`operator*` and `operator->`, const and the
non-const overloads that delegate to them) raises `CantDereference` exactly
when the state is not Succeeded; `fail()` returns the failure payload exactly
when the state is Failed and raises `NotHaveFailedObject` when the state is
Succeeded or Uninit (Uninit is treated like Succeeded there); both error kinds
derive `std::runtime_error` and are catchable as such. -/
theorem C7_accessor_errors (S F : Type) [Inhabited S] [Inhabited F]
    (r : Result S F) (hw : r.wf = true) :
    ((r.derefC = Except.error Err.cantDereference) ↔ ¬ r.state_ = StateV.succeeded)
    ∧ ((r.arrowC = Except.error Err.cantDereference) ↔ ¬ r.state_ = StateV.succeeded)
    ∧ ((∃ fv, r.fail = Except.ok fv) ↔ r.state_ = StateV.failed)
    ∧ ((r.fail = Except.error Err.notHaveFailedObject)
        ↔ (r.state_ = StateV.succeeded ∨ r.state_ = StateV.uninit))
    ∧ Err.isRuntimeError Err.cantDereference = true
    ∧ Err.isRuntimeError Err.notHaveFailedObject = true := by
  rcases r with ⟨st, state⟩
  cases state <;> cases st <;>
    simp_all [Result.wf, Result.derefC, Result.arrowC, Result.fail, Result.opBool,
      Result.readS, Result.readF, Err.isRuntimeError]

/-- Witness for C7 at a default-constructed (Uninit) `Result<int, int>`: the
dereference raises `CantDereference` and `fail()` raises
`NotHaveFailedObject`. -/
theorem C7_witness :
    ((Result.mkUninit : Result Int Int).wf = true)
    ∧ ((((Result.mkUninit : Result Int Int).derefC = Except.error Err.cantDereference)
          ↔ ¬ (Result.mkUninit : Result Int Int).state_ = StateV.succeeded)
      ∧ (((Result.mkUninit : Result Int Int).arrowC = Except.error Err.cantDereference)
          ↔ ¬ (Result.mkUninit : Result Int Int).state_ = StateV.succeeded)
      ∧ ((∃ fv, (Result.mkUninit : Result Int Int).fail = Except.ok fv)
          ↔ (Result.mkUninit : Result Int Int).state_ = StateV.failed)
      ∧ (((Result.mkUninit : Result Int Int).fail = Except.error Err.notHaveFailedObject)
          ↔ ((Result.mkUninit : Result Int Int).state_ = StateV.succeeded
            ∨ (Result.mkUninit : Result Int Int).state_ = StateV.uninit))
      ∧ Err.isRuntimeError Err.cantDereference = true
      ∧ Err.isRuntimeError Err.notHaveFailedObject = true) :=
  ⟨by decide, C7_accessor_errors Int Int Result.mkUninit (by decide)⟩

/-- C8 (confirmed). For every success value `s`, constructing a `Result` from
`s` (by copy or by move) yields an instance whose boolean conversion is true
and whose dereference returns a value equal to `s`. -/
theorem C8_construct_dereference_roundtrip (S F : Type) [Inhabited S] [Inhabited F] (s : S) :
    (Result.ofSucc s : Result S F).opBool = true
    ∧ (Result.ofSucc s : Result S F).derefC = Except.ok s
    ∧ (Result.ofSuccMove s : Result S F).opBool = true
    ∧ (Result.ofSuccMove s : Result S F).derefC = Except.ok s := by
  refine ⟨?_, ?_, ?_, ?_⟩ <;>
    simp [Result.ofSucc, Result.ofSuccMove, Result.opBool, Result.derefC, Result.readS]

end aslib
